import Mathlib

/-!
Verification of the scoring core of the Java Legacy Code Challenge app.

The embedding below translates, from `streamlit_app.pyapp.py`:
  * the static challenge catalog (`_load_java_code_samples`),
  * the evaluation weights (`evaluation_criteria`),
  * challenge selection by difficulty (`get_challenge_by_difficulty`),
  * submission scoring (`evaluate_response`).

Numbers are modelled by exact rationals; Python `round(x, 2)` is modelled
by round-half-to-even at two decimal places (`round2`).  Python `next(...)`
over the catalog, which raises when nothing matches, is modelled by an
`Option` result, with `none` standing for the raised `StopIteration`
(respectively `None` for `get_challenge_by_difficulty`).  The call to
`random.choice` is modelled by an extra index argument `pick`: any index
the random generator could pick is reachable as `pick % filtered.length`.
-/

namespace LegacyJavaCodeChallenge

/-- A record of the static catalog returned by `_load_java_code_samples`. -/
structure Challenge where
  id : Nat
  name : String
  difficulty : String
  code : String
  hints : List String
  expected_requirements : List String
deriving DecidableEq

/-- First catalog record (`id = 1`, "Simple Calculator"). -/
def calculator_sample : Challenge :=
  { id := 1
    name := "Simple Calculator"
    difficulty := "Easy"
    code := "\npublic class Calculator \x7b\n    // Bug: No input validation\n    public double add(double a, double b) \x7b\n        return a + b; // Bug: No overflow check\n    \x7d\n    \n    public double subtract(double a, double b) \x7b\n        return a - b; // Bug: No underflow check\n    \x7d\n    \n    // Bug: Division by zero not handled\n    public double divide(double a, double b) \x7b\n        return a / b;\n    \x7d\n    \n    public double multiply(double a, double b) \x7b\n        return a * b; // Bug: No overflow check\n    \x7d\n    \n    // Bug: No documentation\n    public double power(double base, double exponent) \x7b\n        return Math.pow(base, exponent); // Bug: No NaN/infinity checks\n    \x7d\n\x7d\n                "
    hints :=
      [ "Basic arithmetic operations"
      , "Check for mathematical edge cases"
      , "Consider numerical limitations" ]
    expected_requirements :=
      [ "Addition with overflow check"
      , "Subtraction with underflow check"
      , "Division with zero check"
      , "Multiplication with overflow check"
      , "Power function with validation"
      , "Input validation for all methods"
      , "Proper method documentation" ] }

/-- Second catalog record (`id = 2`, "Multi-Layer Authentication System"). -/
def authentication_sample : Challenge :=
  { id := 2
    name := "Multi-Layer Authentication System"
    difficulty := "Hard"
    code := "\npublic class AuthenticationService \x7b\n    // Bug: Password check is case-insensitive (security issue)\n    private static final Map<String, String> VALID_USERS = Map.of(\n        \"admin\", \"Secure123\",\n        \"user1\", \"Password1\"\n    );\n\n    public boolean authenticateUser(String username, String password, String otp, boolean biometric) \x7b\n        // Bug: No null checks for required parameters\n        if (!VALID_USERS.containsKey(username) || !VALID_USERS.get(username).equalsIgnoreCase(password)) \x7b\n            return false; // Bug: Should log failed attempts\n        \x7d\n\n        if (otp != null) \x7b\n            // Bug: OTP validation missing timeout check\n            try \x7b\n                int otpValue = Integer.parseInt(otp);\n                if (otpValue < 100000 || otpValue > 999999) \x7b\n                    return false;\n                \x7d\n            \x7d catch (NumberFormatException e) \x7b\n                return false; // Bug: Should log this error\n            \x7d\n        \x7d\n\n        if (biometric) \x7b\n            // Bug: No actual biometric verification\n            return Math.random() > 0.1; // 10% failure rate\n        \x7d\n\n        return true; // Bug: Should require at least 2FA for sensitive operations\n    \x7d\n\x7d\n                "
    hints :=
      [ "Security system with multiple authentication layers"
      , "Check for proper validation in each step"
      , "Consider thread safety for the service" ]
    expected_requirements :=
      [ "Case-sensitive password validation"
      , "OTP should be 6 digits with timeout"
      , "Proper biometric verification implementation"
      , "Failed login attempt logging"
      , "Minimum 2FA requirement for sensitive operations"
      , "Null checks for required parameters"
      , "Thread-safe implementation" ] }

/-- The static catalog `self.code_samples = self._load_java_code_samples()`. -/
def code_samples : List Challenge := [calculator_sample, authentication_sample]

/-- The weight dictionary `self.evaluation_criteria`. -/
structure EvaluationCriteria where
  correct_requirements : Rat
  identified_bugs : Rat
  code_improvements : Rat
deriving DecidableEq

/-- `evaluation_criteria = {..: 0.5, ..: 0.4, ..: 0.1}` from `__init__`. -/
def evaluation_criteria : EvaluationCriteria :=
  { correct_requirements := 0.5
    identified_bugs := 0.4
    code_improvements := 0.1 }

/-- Round-half-to-even to the nearest integer, the tie-breaking used by
Python 3 `round`. -/
def roundHalfEven (x : Rat) : Int :=
  let f : Int := Int.floor x
  let frac : Rat := x - (f : Rat)
  if frac < 1/2 then f
  else if 1/2 < frac then f + 1
  else if 2 ∣ f then f else f + 1

/-- Python `round(x, 2)`: round to two decimal places, ties to even. -/
def round2 (x : Rat) : Rat := (roundHalfEven (100 * x) : Rat) / 100

/-- `req_matches = sum(1 for req in requirements if req in
challenge[..expected_requirements..])` from `evaluate_response`. -/
def req_matches (challenge : Challenge) (requirements : List String) : Nat :=
  requirements.countP (fun req => decide (req ∈ challenge.expected_requirements))

/-- `req_score = req_matches / len(challenge[..expected_requirements..])`. -/
def req_score (challenge : Challenge) (requirements : List String) : Rat :=
  (req_matches challenge requirements : Rat) / (challenge.expected_requirements.length : Rat)

/-- `bug_score = min(1.0, len(bugs) / 3)`. -/
def bug_score (bugs : List String) : Rat :=
  min 1 ((bugs.length : Rat) / 3)

/-- `imp_score = min(1.0, len(improvements) / 3)`. -/
def imp_score (improvements : List String) : Rat :=
  min 1 ((improvements.length : Rat) / 3)

/-- `evaluate_response(challenge_id, requirements, bugs, improvements)`:
looks the challenge up by id (`none` models the `StopIteration` raised by
`next` when the id is absent) and returns the rounded weighted total. -/
def evaluate_response (challenge_id : Nat) (requirements bugs improvements : List String) :
    Option Rat :=
  (code_samples.find? (fun c => c.id == challenge_id)).map fun challenge =>
    let total_score : Rat :=
      req_score challenge requirements * evaluation_criteria.correct_requirements +
      bug_score bugs * evaluation_criteria.identified_bugs +
      imp_score improvements * evaluation_criteria.code_improvements
    round2 total_score

/-- Python `str.lower()` as used on the catalog difficulties (all ASCII):
lowercase each character. -/
def lower (s : String) : String := String.mk (s.data.map Char.toLower)

/-- `get_challenge_by_difficulty(difficulty)`: filter the catalog by
case-insensitive difficulty; `random.choice` on a non-empty filtered list is
modelled by the index `pick % filtered.length`, and the empty case returns
`none` (the Python function returns `None`). -/
def get_challenge_by_difficulty (difficulty : String) (pick : Nat) : Option Challenge :=
  let filtered := code_samples.filter fun c => lower c.difficulty == lower difficulty
  if filtered.isEmpty then none
  else filtered.get? (pick % filtered.length)

/-! ### Helper lemmas about the catalog and the scoring pipeline -/

theorem mem_code_samples_iff (c : Challenge) :
    c ∈ code_samples ↔ c = calculator_sample ∨ c = authentication_sample := by
  simp [code_samples]

theorem find?_id_of_mem (c : Challenge) (hc : c ∈ code_samples) :
    code_samples.find? (fun d => d.id == c.id) = some c := by
  rcases (mem_code_samples_iff c).mp hc with rfl | rfl <;> rfl

theorem expected_length_of_mem (c : Challenge) (hc : c ∈ code_samples) :
    c.expected_requirements.length = 7 := by
  rcases (mem_code_samples_iff c).mp hc with rfl | rfl <;> rfl

theorem evaluate_response_eq_of_mem (c : Challenge) (hc : c ∈ code_samples)
    (r b i : List String) :
    evaluate_response c.id r b i =
      some (round2 (req_score c r * evaluation_criteria.correct_requirements +
        bug_score b * evaluation_criteria.identified_bugs +
        imp_score i * evaluation_criteria.code_improvements)) := by
  rcases (mem_code_samples_iff c).mp hc with rfl | rfl <;> rfl

theorem correct_requirements_weight : evaluation_criteria.correct_requirements = 1/2 := by
  norm_num [evaluation_criteria]

theorem identified_bugs_weight : evaluation_criteria.identified_bugs = 2/5 := by
  norm_num [evaluation_criteria]

theorem code_improvements_weight : evaluation_criteria.code_improvements = 1/10 := by
  norm_num [evaluation_criteria]

theorem roundHalfEven_eq_floor (x : Rat) (n : Int) (h1 : Int.floor x = n)
    (h2 : x - (n : Rat) < 1/2) : roundHalfEven x = n := by
  simp only [roundHalfEven, h1, if_pos h2]

theorem roundHalfEven_eq_floor_add_one (x : Rat) (n : Int) (h1 : Int.floor x = n)
    (h2 : 1/2 < x - (n : Rat)) : roundHalfEven x = n + 1 := by
  simp only [roundHalfEven, h1]
  rw [if_neg (by linarith), if_pos h2]

theorem round2_eq_of_floor_lt_half (x : Rat) (n : Int) (h1 : Int.floor (100 * x) = n)
    (h2 : 100 * x - (n : Rat) < 1/2) : round2 x = (n : Rat) / 100 := by
  rw [round2, roundHalfEven_eq_floor _ n h1 h2]

theorem round2_eq_of_floor_gt_half (x : Rat) (n : Int) (h1 : Int.floor (100 * x) = n)
    (h2 : 1/2 < 100 * x - (n : Rat)) : round2 x = ((n : Rat) + 1) / 100 := by
  rw [round2, roundHalfEven_eq_floor_add_one _ n h1 h2]
  push_cast
  ring

theorem req_matches_append_mem (c : Challenge) (r : List String) (x : String)
    (hx : x ∈ c.expected_requirements) :
    req_matches c (r ++ [x]) = req_matches c r + 1 := by
  simp [req_matches, List.countP_append, hx]

theorem req_matches_append_not_mem (c : Challenge) (r : List String) (x : String)
    (hx : x ∉ c.expected_requirements) :
    req_matches c (r ++ [x]) = req_matches c r := by
  simp [req_matches, List.countP_append, hx]

theorem req_matches_of_all_matched (c : Challenge) (r : List String)
    (hall : ∀ x ∈ r, x ∈ c.expected_requirements) :
    req_matches c r = r.length := by
  rw [req_matches, List.countP_eq_length]
  intro a ha
  simpa using hall a ha

theorem evaluate_response_one (r b i : List String) :
    evaluate_response 1 r b i =
      some (round2 (req_score calculator_sample r * evaluation_criteria.correct_requirements +
        bug_score b * evaluation_criteria.identified_bugs +
        imp_score i * evaluation_criteria.code_improvements)) := rfl

theorem calculator_expected_length : calculator_sample.expected_requirements.length = 7 := rfl

theorem bug_score_nil : bug_score [] = 0 := by
  rw [bug_score]
  norm_num

theorem imp_score_nil : imp_score [] = 0 := by
  rw [imp_score]
  norm_num

theorem bug_score_of_three_le (b : List String) (h : 3 ≤ b.length) : bug_score b = 1 := by
  rw [bug_score, min_eq_left]
  rw [le_div_iff₀ (by norm_num)]
  have h3 : (3 : Rat) ≤ (b.length : Rat) := by exact_mod_cast h
  linarith

theorem imp_score_of_three_le (i : List String) (h : 3 ≤ i.length) : imp_score i = 1 := by
  rw [imp_score, min_eq_left]
  rw [le_div_iff₀ (by norm_num)]
  have h3 : (3 : Rat) ≤ (i.length : Rat) := by exact_mod_cast h
  linarith

theorem bug_score_congr (b b2 : List String) (h : b.length = b2.length) :
    bug_score b = bug_score b2 := by
  rw [bug_score, bug_score, h]

theorem imp_score_congr (i i2 : List String) (h : i.length = i2.length) :
    imp_score i = imp_score i2 := by
  rw [imp_score, imp_score, h]

theorem round2_zero : round2 0 = 0 := by
  have h1 : Int.floor ((100 : Rat) * 0) = 0 := by
    rw [Int.floor_eq_iff]; norm_num
  have h := round2_eq_of_floor_lt_half 0 0 h1 (by norm_num)
  rw [h]
  norm_num

theorem round2_one : round2 1 = 1 := by
  have h1 : Int.floor ((100 : Rat) * 1) = 100 := by
    rw [Int.floor_eq_iff]; norm_num
  have h := round2_eq_of_floor_lt_half 1 100 h1 (by norm_num)
  rw [h]
  norm_num

theorem round2_one_div_fourteen : round2 (1/14) = 7/100 := by
  have h1 : Int.floor ((100 : Rat) * (1/14)) = 7 := by
    rw [Int.floor_eq_iff]; norm_num
  have h := round2_eq_of_floor_lt_half (1/14) 7 h1 (by norm_num)
  rw [h]
  norm_num

theorem round2_one_div_seven : round2 (1/7) = 7/50 := by
  have h1 : Int.floor ((100 : Rat) * (1/7)) = 14 := by
    rw [Int.floor_eq_iff]; norm_num
  have h := round2_eq_of_floor_lt_half (1/7) 14 h1 (by norm_num)
  rw [h]
  norm_num

theorem round2_fifteen_div_fourteen : round2 (15/14) = 107/100 := by
  have h1 : Int.floor ((100 : Rat) * (15/14)) = 107 := by
    rw [Int.floor_eq_iff]; norm_num
  have h := round2_eq_of_floor_lt_half (15/14) 107 h1 (by norm_num)
  rw [h]
  norm_num

theorem round2_41_div_70 : round2 (41/70) = 59/100 := by
  have h1 : Int.floor ((100 : Rat) * (41/70)) = 58 := by
    rw [Int.floor_eq_iff]; norm_num
  have h := round2_eq_of_floor_gt_half (41/70) 58 h1 (by norm_num)
  rw [h]
  norm_num

theorem req_score_calculator_eq (r : List String) (n : Nat)
    (hm : req_matches calculator_sample r = n) :
    req_score calculator_sample r = (n : Rat) / 7 := by
  rw [req_score, hm, calculator_expected_length]
  norm_num

theorem bug_score_two (b : List String) (h : b.length = 2) : bug_score b = 2/3 := by
  rw [bug_score, h]
  rw [min_eq_right (by norm_num)]
  norm_num

theorem imp_score_one (i : List String) (h : i.length = 1) : imp_score i = 1/3 := by
  rw [imp_score, h]
  rw [min_eq_right (by norm_num)]
  norm_num

/-! ### Claim theorems -/

/-- Claim C1, counterexample: submitting the same correct requirement twice does
NOT score the same as submitting it once — the returned scores differ
(0.14 vs 0.07 on the "Simple Calculator" challenge). -/
theorem C1_counterexample :
    evaluate_response 1 ["Division with zero check", "Division with zero check"] [] [] ≠
      evaluate_response 1 ["Division with zero check"] [] [] := by
  have ha : req_score calculator_sample
      ["Division with zero check", "Division with zero check"] = 2/7 := by
    rw [req_score_calculator_eq _ 2 (by decide)]
    norm_num
  have hb : req_score calculator_sample ["Division with zero check"] = 1/7 := by
    rw [req_score_calculator_eq _ 1 (by decide)]
    norm_num
  rw [evaluate_response_one, evaluate_response_one]
  rw [ha, hb, bug_score_nil, imp_score_nil, correct_requirements_weight,
    identified_bugs_weight, code_improvements_weight]
  have e2 : (2 : Rat) / 7 * (1/2) + 0 * (2/5) + 0 * (1/10) = 1/7 := by norm_num
  have e1 : (1 : Rat) / 7 * (1/2) + 0 * (2/5) + 0 * (1/10) = 1/14 := by norm_num
  rw [e2, e1, round2_one_div_seven, round2_one_div_fourteen]
  simp only [ne_eq, Option.some.injEq]
  norm_num

/-- Claim C1, amended: requirement scoring does not dedupe matches.  Every
occurrence of an answer-key entry in the submitted requirements list counts as
one more match, so listing the same correct requirement a second time adds a
further `1/len(expected_requirements)` to the requirement sub-score (while
bug/improvement scoring counts raw list length). -/
theorem C1_duplicates_add_credit (c : Challenge) (hc : c ∈ code_samples)
    (r : List String) (x : String) (hx : x ∈ c.expected_requirements) :
    req_matches c (r ++ [x]) = req_matches c r + 1 ∧
    req_score c (r ++ [x]) =
      req_score c r + 1 / (c.expected_requirements.length : Rat) := by
  refine ⟨req_matches_append_mem c r x hx, ?_⟩
  simp only [req_score, req_matches_append_mem c r x hx, expected_length_of_mem c hc]
  push_cast
  ring

/-- Claim C1, witness for the amended theorem at a concrete duplicate. -/
theorem C1_witness :
    req_matches calculator_sample
        (["Division with zero check"] ++ ["Division with zero check"]) =
      req_matches calculator_sample ["Division with zero check"] + 1 ∧
    req_score calculator_sample
        (["Division with zero check"] ++ ["Division with zero check"]) =
      req_score calculator_sample ["Division with zero check"] +
        1 / (calculator_sample.expected_requirements.length : Rat) :=
  C1_duplicates_add_credit calculator_sample
    ((mem_code_samples_iff calculator_sample).mpr (Or.inl rfl))
    ["Division with zero check"] "Division with zero check" (by decide)

/-- Claim C2: the claimed range [0, 1] is violated by the code (a code bug: the
docstring of `evaluate_response` promises a score between 0 and 1).  Submitting
the same correct requirement 15 times to the "Simple Calculator" challenge makes
the requirement sub-score 15/7 and the returned total 1.07 > 1. -/
theorem C2_failing_input_exceeds_one :
    evaluate_response 1 (List.replicate 15 "Division with zero check") [] [] =
      some (107/100) ∧
    ¬ ((107 : Rat) / 100 ≤ 1) := by
  constructor
  · have ha : req_score calculator_sample
        (List.replicate 15 "Division with zero check") = 15/7 := by
      rw [req_score_calculator_eq _ 15 (by decide)]
      norm_num
    rw [evaluate_response_one]
    rw [ha, bug_score_nil, imp_score_nil, correct_requirements_weight,
      identified_bugs_weight, code_improvements_weight]
    have e : (15 : Rat) / 7 * (1/2) + 0 * (2/5) + 0 * (1/10) = 15/14 := by norm_num
    rw [e, round2_fifteen_div_fourteen]
  · norm_num

/-- Claim C3, counterexample: with 4 distinct correct requirements, 2 bug strings
and 1 improvement string the "Simple Calculator" challenge scores 0.59, not the
claimed 0.62 (the spec scenario mis-adds its own sub-scores:
2/7 + 4/15 + 1/30 = 41/70 which rounds to 0.59). -/
theorem C3_counterexample :
    evaluate_response 1
      ["Addition with overflow check", "Subtraction with underflow check",
        "Division with zero check", "Multiplication with overflow check"]
      ["Bug one", "Bug two"] ["Improvement one"] = some (59/100) ∧
    (59 : Rat) / 100 ≠ 62/100 := by
  constructor
  · have ha : req_score calculator_sample
        ["Addition with overflow check", "Subtraction with underflow check",
          "Division with zero check", "Multiplication with overflow check"] = 4/7 := by
      rw [req_score_calculator_eq _ 4 (by decide)]
      norm_num
    rw [evaluate_response_one]
    rw [ha, bug_score_two _ (by decide), imp_score_one _ (by decide)]
    rw [correct_requirements_weight, identified_bugs_weight, code_improvements_weight]
    have e : (4 : Rat) / 7 * (1/2) + 2/3 * (2/5) + 1/3 * (1/10) = 41/70 := by norm_num
    rw [e, round2_41_div_70]
  · norm_num

/-- Claim C3, amended: any submission to the "Simple Calculator" challenge made
of 4 distinct correct requirement strings, 2 bug strings and 1 improvement
string returns exactly 0.59. -/
theorem C3_scenario_scores_059 (r b i : List String) (_hnd : r.Nodup)
    (hsub : ∀ x ∈ r, x ∈ calculator_sample.expected_requirements)
    (hr : r.length = 4) (hb : b.length = 2) (hi : i.length = 1) :
    evaluate_response 1 r b i = some (59/100) := by
  have ha : req_score calculator_sample r = 4/7 := by
    rw [req_score_calculator_eq _ 4 (by rw [req_matches_of_all_matched _ _ hsub, hr])]
    norm_num
  rw [evaluate_response_one]
  rw [ha, bug_score_two b hb, imp_score_one i hi]
  rw [correct_requirements_weight, identified_bugs_weight, code_improvements_weight]
  have e : (4 : Rat) / 7 * (1/2) + 2/3 * (2/5) + 1/3 * (1/10) = 41/70 := by norm_num
  rw [e, round2_41_div_70]

/-- Claim C3, witness for the amended theorem at a concrete submission. -/
theorem C3_witness :
    evaluate_response 1
      ["Addition with overflow check", "Subtraction with underflow check",
        "Division with zero check", "Multiplication with overflow check"]
      ["First bug", "Second bug"] ["First improvement"] = some (59/100) :=
  C3_scenario_scores_059 _ _ _ (by decide) (by decide) rfl rfl rfl

/-- Claim C4: for every catalog challenge, appending a requirement that exactly
matches the answer key never decreases the requirement sub-score, and appending
an entry absent from the key leaves the returned score unchanged. -/
theorem C4_append_monotone_extras_ignored (c : Challenge) (hc : c ∈ code_samples)
    (r b i : List String) (x : String) :
    (x ∈ c.expected_requirements → req_score c r ≤ req_score c (r ++ [x])) ∧
    (x ∉ c.expected_requirements →
      evaluate_response c.id (r ++ [x]) b i = evaluate_response c.id r b i) := by
  constructor
  · intro hx
    simp only [req_score, req_matches_append_mem c r x hx, expected_length_of_mem c hc]
    push_cast
    gcongr
    linarith
  · intro hx
    rw [evaluate_response_eq_of_mem c hc (r ++ [x]) b i,
      evaluate_response_eq_of_mem c hc r b i]
    rw [req_score, req_score, req_matches_append_not_mem c r x hx]

/-- Claim C4, witness: a matching entry appended to the empty list does not
lower the sub-score, and an absent entry appended leaves the score unchanged. -/
theorem C4_witness :
    (req_score calculator_sample [] ≤
      req_score calculator_sample ([] ++ ["Addition with overflow check"])) ∧
    evaluate_response calculator_sample.id ([] ++ ["Not in the key"]) [] [] =
      evaluate_response calculator_sample.id [] [] [] :=
  ⟨(C4_append_monotone_extras_ignored calculator_sample
      ((mem_code_samples_iff calculator_sample).mpr (Or.inl rfl))
      [] [] [] "Addition with overflow check").1 (by decide),
    (C4_append_monotone_extras_ignored calculator_sample
      ((mem_code_samples_iff calculator_sample).mpr (Or.inl rfl))
      [] [] [] "Not in the key").2 (by decide)⟩

/-- Claim C5: bug and improvement sub-scores are `min(1, length/3)` and depend
only on list length: 2 bug entries give 2/3, 3-or-more give exactly 1, and
replacing the bug and improvement lists by same-length lists of arbitrary
content never changes the returned score. -/
theorem C5_quantity_only_scoring :
    (∀ b : List String, bug_score b = min 1 ((b.length : Rat) / 3)) ∧
    (∀ i : List String, imp_score i = min 1 ((i.length : Rat) / 3)) ∧
    (∀ b : List String, b.length = 2 → bug_score b = 2/3) ∧
    (∀ b : List String, 3 ≤ b.length → bug_score b = 1) ∧
    (∀ i : List String, 3 ≤ i.length → imp_score i = 1) ∧
    (∀ (cid : Nat) (r b b2 i i2 : List String), b.length = b2.length →
      i.length = i2.length →
      evaluate_response cid r b i = evaluate_response cid r b2 i2) := by
  refine ⟨fun b => rfl, fun i => rfl, fun b hb => bug_score_two b hb,
    fun b hb => bug_score_of_three_le b hb, fun i hi => imp_score_of_three_le i hi,
    fun cid r b b2 i i2 hb hi => ?_⟩
  have h1 : bug_score b = bug_score b2 := bug_score_congr b b2 hb
  have h2 : imp_score i = imp_score i2 := imp_score_congr i i2 hi
  simp only [evaluate_response, h1, h2]

/-- Claim C5, witness: 2 bug entries score 2/3, 5 score the same 1.0 as 3, and
the score ignores bug-entry content. -/
theorem C5_witness :
    bug_score ["b1", "b2"] = 2/3 ∧
    bug_score ["b1", "b2", "b3", "b4", "b5"] = 1 ∧
    bug_score ["b1", "b2", "b3"] = 1 ∧
    evaluate_response 1 [] ["b1", "b2", "b3"] [] =
      evaluate_response 1 [] ["c1", "c2", "c3"] [] :=
  ⟨C5_quantity_only_scoring.2.2.1 _ (by decide),
    C5_quantity_only_scoring.2.2.2.1 _ (by decide),
    C5_quantity_only_scoring.2.2.2.1 _ (by decide),
    C5_quantity_only_scoring.2.2.2.2.2 1 [] _ _ [] [] (by decide) (by decide)⟩

/-- Claim C6: every catalog challenge scores exactly 0 on empty requirement,
bug and improvement lists, with no error (the lookup and the score are both
defined, returning `some 0`). -/
theorem C6_empty_submission_zero (c : Challenge) (hc : c ∈ code_samples) :
    evaluate_response c.id [] [] [] = some 0 := by
  rw [evaluate_response_eq_of_mem c hc]
  have hr : req_score c [] = 0 := by
    rw [req_score]
    simp [req_matches]
  rw [hr, bug_score_nil, imp_score_nil]
  have e : (0 : Rat) * evaluation_criteria.correct_requirements +
      0 * evaluation_criteria.identified_bugs +
      0 * evaluation_criteria.code_improvements = 0 := by ring
  rw [e, round2_zero]

/-- Claim C6, witness at the "Simple Calculator" challenge. -/
theorem C6_witness : evaluate_response calculator_sample.id [] [] [] = some 0 :=
  C6_empty_submission_zero calculator_sample
    ((mem_code_samples_iff calculator_sample).mpr (Or.inl rfl))

/-- Claim C7: every catalog challenge scores exactly 1 when the submitted
requirements are exactly its expected-requirements list and the bug and
improvement lists have 3 entries each. -/
theorem C7_perfect_submission_full_score (c : Challenge) (hc : c ∈ code_samples)
    (b i : List String) (hb : b.length = 3) (hi : i.length = 3) :
    evaluate_response c.id c.expected_requirements b i = some 1 := by
  rw [evaluate_response_eq_of_mem c hc]
  have hm : req_matches c c.expected_requirements = c.expected_requirements.length :=
    req_matches_of_all_matched c _ (fun x hx => hx)
  have hr : req_score c c.expected_requirements = 1 := by
    rw [req_score, hm, expected_length_of_mem c hc]
    norm_num
  rw [hr, bug_score_of_three_le b (by omega), imp_score_of_three_le i (by omega)]
  rw [correct_requirements_weight, identified_bugs_weight, code_improvements_weight]
  have e : (1 : Rat) * (1/2) + 1 * (2/5) + 1 * (1/10) = 1 := by norm_num
  rw [e, round2_one]

/-- Claim C7, witness at the "Simple Calculator" challenge. -/
theorem C7_witness :
    evaluate_response calculator_sample.id calculator_sample.expected_requirements
      ["b1", "b2", "b3"] ["i1", "i2", "i3"] = some 1 :=
  C7_perfect_submission_full_score calculator_sample
    ((mem_code_samples_iff calculator_sample).mpr (Or.inl rfl))
    ["b1", "b2", "b3"] ["i1", "i2", "i3"] rfl rfl

/-- Claim C8: any challenge `get_challenge_by_difficulty` can return lies in the
catalog and matches the requested difficulty case-insensitively, and a
difficulty matching no record yields `None` (no exception, never a
wrong-difficulty record). -/
theorem C8_difficulty_filter_sound :
    (∀ (d : String) (pick : Nat) (c : Challenge),
      get_challenge_by_difficulty d pick = some c →
        c ∈ code_samples ∧ lower c.difficulty = lower d) ∧
    (∀ pick : Nat, get_challenge_by_difficulty "nonexistent-level" pick = none) := by
  constructor
  · intro d pick c h
    unfold get_challenge_by_difficulty at h
    set filtered := code_samples.filter fun c => lower c.difficulty == lower d with hf
    by_cases he : filtered.isEmpty
    · rw [if_pos he] at h
      exact absurd h (by simp)
    · rw [if_neg he] at h
      have hmem : c ∈ filtered := List.get?_mem h
      have := List.mem_filter.mp (hf ▸ hmem)
      exact ⟨this.1, by simpa using this.2⟩
  · intro pick
    rfl

set_option maxRecDepth 4000 in
/-- Claim C8, witness: selecting "easy" yields the catalog record whose
difficulty is "Easy". -/
theorem C8_witness :
    calculator_sample ∈ code_samples ∧
      lower calculator_sample.difficulty = lower "easy" :=
  C8_difficulty_filter_sound.1 "easy" 0 calculator_sample (by decide)

/-- Claim C9: catalog invariant — every record has a non-empty
expected-requirements list (so the requirement sub-score's division is
well-defined) and record ids are unique within the catalog. -/
theorem C9_catalog_invariant :
    (∀ c ∈ code_samples, c.expected_requirements ≠ []) ∧
    (code_samples.map Challenge.id).Nodup := by
  constructor
  · intro c hc
    rcases (mem_code_samples_iff c).mp hc with rfl | rfl
    · decide
    · decide
  · decide

/-- Claim C9, witness at the "Simple Calculator" challenge. -/
theorem C9_witness : calculator_sample.expected_requirements ≠ [] :=
  C9_catalog_invariant.1 calculator_sample
    ((mem_code_samples_iff calculator_sample).mpr (Or.inl rfl))

/-- Claim C10: the returned score is invariant under any permutation of each of
the three submitted lists. -/
theorem C10_permutation_invariant (cid : Nat) (r r2 b b2 i i2 : List String)
    (hr : r.Perm r2) (hb : b.Perm b2) (hi : i.Perm i2) :
    evaluate_response cid r b i = evaluate_response cid r2 b2 i2 := by
  have h1 : ∀ c : Challenge, req_score c r = req_score c r2 := fun c => by
    rw [req_score, req_score, req_matches, req_matches, hr.countP_eq]
  have h2 : bug_score b = bug_score b2 := bug_score_congr b b2 hb.length_eq
  have h3 : imp_score i = imp_score i2 := imp_score_congr i i2 hi.length_eq
  simp only [evaluate_response, h1, h2, h3]

/-- Claim C10, witness at concrete reorderings of all three lists. -/
theorem C10_witness :
    evaluate_response 1 ["Division with zero check", "Addition with overflow check"]
      ["b1", "b2"] ["i1", "i2"] =
    evaluate_response 1 ["Addition with overflow check", "Division with zero check"]
      ["b2", "b1"] ["i2", "i1"] :=
  C10_permutation_invariant 1 _ _ _ _ _ _ (List.Perm.swap _ _ _) (List.Perm.swap _ _ _)
    (List.Perm.swap _ _ _)

end LegacyJavaCodeChallenge
